import Mathlib

/-
Verification of the Reno-Pricing estimation core.

Shallow embedding of src/app/main.py (rate resolution, cost extraction,
modifier pipeline, duration heuristic, batch aggregation in the /estimate
route) and of src/auto_refresh.py (the price-refresh job).

Modelling conventions:
- Python floats are modelled as exact rationals.
- Python dicts are modelled as association lists in insertion order;
  dict.get is dictGet below.
- Python round and the two-decimal formatting in round2 are modelled as
  round-half-to-even.
- A Python exception escaping compute_estimate (KeyError / AttributeError on
  malformed rate data) is modelled as Option.none.
-/

/-- A Python value that may be a number or something non-numeric (used for
complexity-modifier values and for the entries of the stored price file). -/
inductive PyVal where
  | num (q : ℚ)
  | str (s : String)
deriving DecidableEq

/-- Python's builtin round: round half to even.  The fractional-part
comparisons are phrased against floor plus one half. -/
def pyRound (x : ℚ) : ℤ :=
  let f : ℤ := Int.floor x
  if x < (f : ℚ) + 1/2 then f
  else if (f : ℚ) + 1/2 < x then f + 1
  else if f % 2 = 0 then f else f + 1

/-- Two-decimal rounding: round2 in src/app/main.py (formatting with .2f) and
round(v, 2) in src/auto_refresh.py. -/
def round2 (x : ℚ) : ℚ := (pyRound (x * 100) : ℚ) / 100

/-- Rounding to one decimal place, used by the spec's overlap-adjusted
duration policy. -/
def round1 (x : ℚ) : ℚ := (pyRound (x * 10) : ℚ) / 10

/-- Python str.lower, character by character. -/
def str_lower (s : String) : String := ⟨s.data.map Char.toLower⟩

/-- Python's substring test: pat in hay. -/
def strContains (hay pat : String) : Bool :=
  hay.data.tails.any (fun t => pat.data.isPrefixOf t)

/-- A rate schema: a dict from unit-price keys and materials_pct to numbers,
in insertion order. -/
abbrev RateSchema := List (String × ℚ)

/-- A value stored under base_rates in the price configuration: normally a
schema dict, but the fallback configuration stores a bare number. -/
inductive RateVal where
  | table (entries : RateSchema)
  | num (q : ℚ)
deriving DecidableEq

/-- The price-configuration fields the estimation core reads (PRICE_CFG,
DEFAULT_REGION, HST_RATE in src/app/main.py), with the .get defaults already
applied. -/
structure PriceCfg where
  default_region : String
  hst_rate : ℚ
  region_multipliers : List (String × ℚ)
  base_rates : List (String × RateVal)
deriving DecidableEq

/-- The Modifier model of src/app/main.py. -/
structure Modifier where
  name : String
  factor : ℚ
deriving DecidableEq

/-- The EstimateOut model of src/app/main.py. The day fields are Optional in
the source but compute_estimate always sets them, so they are plain integers
here. -/
structure EstimateOut where
  job_type : String
  region : String
  labor : ℚ
  materials : ℚ
  modifiers : List Modifier
  subtotal : ℚ
  tax : ℚ
  total : ℚ
  currency : String
  notes : Option String
  est_days_low : ℤ
  est_days_high : ℤ
deriving DecidableEq

/-- The EstimateIn model of src/app/main.py.  Complexity-modifier values are
PyVal because compute_estimate tolerates non-numeric entries. -/
structure EstimateIn where
  job_type : String
  inputs : List (String × ℚ)
  region : Option String
  include_tax : Bool
  complexity_modifiers : Option (List (String × PyVal))
deriving DecidableEq

/-- The BatchOut model of src/app/main.py. -/
structure BatchOut where
  estimates : List EstimateOut
  total_subtotal : ℚ
  total_tax : ℚ
  total_total : ℚ
  est_days_low : ℤ
  est_days_high : ℤ
deriving DecidableEq

/-- Python dict.get over an insertion-ordered association list: the value at
the first matching key, if any. -/
def dictGet {α : Type} (k : String) : List (String × α) → Option α
  | [] => none
  | kv :: rest => if kv.1 = k then some kv.2 else dictGet k rest

/-- get_region_multiplier in src/app/main.py: looks up region or
DEFAULT_REGION in the multiplier table with default 1.0.  Python's or sends
both None and the empty string to the default region. -/
def get_region_multiplier (cfg : PriceCfg) (region : Option String) : ℚ :=
  let r := match region with
    | some s => if s = "" then cfg.default_region else s
    | none => cfg.default_region
  (dictGet r cfg.region_multipliers).getD 1

/-- The resolved region written into the EstimateOut (region or
DEFAULT_REGION in the source). -/
def resolved_region (cfg : PriceCfg) (region : Option String) : String :=
  match region with
  | some s => if s = "" then cfg.default_region else s
  | none => cfg.default_region

/-- choose_cost_key in src/app/main.py: first key other than materials_pct,
else per_sqft. -/
def choose_cost_key : RateSchema → String
  | [] => "per_sqft"
  | kv :: rest => if kv.1 = "materials_pct" then choose_cost_key rest else kv.1

/-- The substring-heuristic fallback schemas in compute_estimate
(src/app/main.py lines 141-149). -/
def heuristic_base (job_type : String) : RateSchema :=
  let j := str_lower job_type
  if strContains j "plumb" then [("per_fixture", 275), ("materials_pct", 40/100)]
  else if strContains j "elect" then [("per_point", 195), ("materials_pct", 35/100)]
  else if strContains j "paint" then [("per_sqft", 35/10), ("materials_pct", 20/100)]
  else if strContains j "tile" then [("per_sqft", 10), ("materials_pct", 40/100)]
  else if strContains j "drywall" then [("per_sqft", 6), ("materials_pct", 30/100)]
  else if strContains j "carp" then [("per_sqft", 8), ("materials_pct", 30/100)]
  else if strContains j "handyman" then [("per_point", 95), ("materials_pct", 20/100)]
  else [("per_sqft", 10), ("materials_pct", 35/100)]

/-- Python truthiness of a base_rates value, as tested by the source's
if not base. -/
def rateValTruthy : RateVal → Bool
  | .table l => !l.isEmpty
  | .num q => q != 0

/-- Rate resolution in compute_estimate: exact lookup in base_rates, with the
heuristic fallback when the lookup misses or yields a falsy value. -/
def base_for (cfg : PriceCfg) (job_type : String) : RateVal :=
  match dictGet job_type cfg.base_rates with
  | some v => if rateValTruthy v then v else .table (heuristic_base job_type)
  | none => .table (heuristic_base job_type)

/-- Quantity, labor and materials of one line (src/app/main.py lines
151-155).  none models the KeyError the source raises when the chosen cost
key or materials_pct is absent from the schema. -/
def line_core (base : RateSchema) (inputs : List (String × ℚ)) :
    Option (ℚ × ℚ × ℚ) :=
  let key := choose_cost_key base
  match dictGet key base, dictGet "materials_pct" base with
  | some unit, some pct =>
    let qty := (dictGet key inputs).getD 0
    let base_cost := qty * unit
    some (qty, base_cost * (1 - pct), base_cost * pct)
  | _, _ => none

/-- One step of the complexity-modifier loop: a numeric factor multiplies the
running subtotal and appends a record; anything else is skipped. -/
def mod_step (acc : ℚ × List Modifier) (nm : String × PyVal) : ℚ × List Modifier :=
  match nm.2 with
  | .num f => (acc.1 * f, acc.2 ++ [⟨nm.1, round2 f⟩])
  | .str _ => acc

/-- The complexity-modifier loop of compute_estimate (lines 162-165). -/
def apply_mods (subtotal : ℚ) (mods : List (String × PyVal)) : ℚ × List Modifier :=
  mods.foldl mod_step (subtotal, [])

/-- The product of the numeric factors of a modifier mapping. -/
def mod_product (mods : List (String × PyVal)) : ℚ :=
  (mods.filterMap (fun nm => match nm.2 with
    | .num f => some f
    | .str _ => none)).prod

/-- The Modifier records the loop appends, in input order. -/
def mod_records (mods : List (String × PyVal)) : List Modifier :=
  mods.filterMap (fun nm => match nm.2 with
    | .num f => some (⟨nm.1, round2 f⟩ : Modifier)
    | .str _ => none)

/-- base_days in compute_estimate (line 171). -/
def base_days (qty : ℚ) : ℚ := if qty > 0 then max 1 (qty / 300) else 1

/-- Lines 157-186 of src/app/main.py: from quantity, labor and materials to
the full EstimateOut. -/
def finish_estimate (cfg : PriceCfg) (job_type : String) (region : Option String)
    (include_tax : Bool) (cm : List (String × PyVal)) (t : ℚ × ℚ × ℚ) : EstimateOut :=
  let region_mult := get_region_multiplier cfg region
  let sm := apply_mods ((t.2.1 + t.2.2) * region_mult) cm
  let tax := if include_tax then sm.1 * cfg.hst_rate else 0
  { job_type := job_type
    region := resolved_region cfg region
    labor := round2 t.2.1
    materials := round2 t.2.2
    modifiers := ⟨"region_multiplier", round2 region_mult⟩ :: sm.2
    subtotal := round2 sm.1
    tax := round2 tax
    total := round2 (sm.1 + tax)
    currency := "CAD"
    notes := some "Internal estimate."
    est_days_low := pyRound (base_days t.1)
    est_days_high := pyRound (base_days t.1 * (3/2)) }

/-- compute_estimate of src/app/main.py.  none models an uncaught exception
(a bare-number rate value has no keys; a schema missing the cost key or
materials_pct raises KeyError). -/
def compute_estimate (cfg : PriceCfg) (job_type : String) (inputs : List (String × ℚ))
    (region : Option String) (include_tax : Bool)
    (complexity_modifiers : Option (List (String × PyVal))) : Option EstimateOut :=
  let cm := complexity_modifiers.getD []
  match base_for cfg job_type with
  | .num _ => none
  | .table base =>
    (line_core base inputs).map (finish_estimate cfg job_type region include_tax cm)

/-- The call the /estimate list comprehension makes for one line. -/
def run_line (cfg : PriceCfg) (i : EstimateIn) : Option EstimateOut :=
  compute_estimate cfg i.job_type i.inputs i.region i.include_tax i.complexity_modifiers

/-- Sequential evaluation of the lines of the /estimate body; none when any
line raises. -/
def run_lines (cfg : PriceCfg) : List EstimateIn → Option (List EstimateOut)
  | [] => some []
  | i :: rest =>
    match run_line cfg i, run_lines cfg rest with
    | some e, some es => some (e :: es)
    | _, _ => none

/-- The /estimate route body (src/app/main.py lines 236-247): per-line
estimates, totals re-rounded after summation, day fields summed. -/
def estimate (cfg : PriceCfg) (items : List EstimateIn) : Option BatchOut :=
  match run_lines cfg items with
  | none => none
  | some results =>
    some {
      estimates := results
      total_subtotal := round2 ((results.map EstimateOut.subtotal).sum)
      total_tax := round2 ((results.map EstimateOut.tax).sum)
      total_total := round2 ((results.map EstimateOut.total).sum)
      est_days_low := (results.map EstimateOut.est_days_low).sum
      est_days_high := (results.map EstimateOut.est_days_high).sum }

/-- The fallback price configuration built in the except branch of
load_prices (src/app/main.py lines 31-49), restricted to the fields the
estimation core reads. -/
def fallback_prices : PriceCfg :=
  { default_region := "Durham"
    hst_rate := 13/100
    region_multipliers := [("Durham", 1)]
    base_rates := [("default", .num 100)] }

/-- The part of the stored price file that refresh_prices touches: the
base_rates table of dicts and the last_refreshed stamp (src/auto_refresh.py).
Values are PyVal because the job tests isinstance before scaling. -/
structure PricesFile where
  base_rates : List (String × List (String × PyVal))
  last_refreshed : Option String
deriving DecidableEq

/-- refresh_prices of src/auto_refresh.py: stamps the date and replaces every
numeric value v in every base_rates entry by round(v * 1.015, 2); non-numeric
values are left alone. -/
def refresh_prices (today : String) (d : PricesFile) : PricesFile :=
  { base_rates := d.base_rates.map (fun kv =>
      (kv.1, kv.2.map (fun sv =>
        match sv.2 with
        | .num q => (sv.1, PyVal.num (round2 (q * (1015/1000))))
        | .str s => (sv.1, PyVal.str s))))
    last_refreshed := some today }

/-- Modelled from the spec, duration policy (b) of section 4.5: the
overlap factor max(0.65, 1 - 0.12 * (tradeCount - 1)). -/
def spec_overlap_factor (n : ℕ) : ℚ := max (65/100) (1 - (12/100) * ((n : ℚ) - 1))

/-- Modelled from the spec, duration policy (b): the continuous per-line day
estimates summed and scaled by the overlap factor. -/
def spec_overlap_scaled (qs : List ℚ) : ℚ :=
  ((qs.map base_days).sum) * spec_overlap_factor qs.length

/-- Modelled from the spec, duration policy (b): low bound, one decimal. -/
def spec_overlap_low (qs : List ℚ) : ℚ := round1 (spec_overlap_scaled qs * (9/10))

/-- Modelled from the spec, duration policy (b): high bound, one decimal. -/
def spec_overlap_high (qs : List ℚ) : ℚ := round1 (spec_overlap_scaled qs * (11/10))

/-- Modelled from the spec's words for the claimed region rule: the request's
region when given, else the catalog default; multiplier 1.0 when absent from
the table.  Used only to exhibit where the code departs from it. -/
def spec_region_multiplier (cfg : PriceCfg) (region : Option String) : ℚ :=
  (dictGet (region.getD cfg.default_region) cfg.region_multipliers).getD 1

/-- Witness catalog: one exact rate entry and two region multipliers. -/
def cfg_wit : PriceCfg :=
  { default_region := "Durham"
    hst_rate := 13/100
    region_multipliers := [("Durham", 1), ("GTA", 3/2)]
    base_rates := [("painting", .table [("per_sqft", 35/10), ("materials_pct", 20/100)])] }

/-- Witness line: 600 square feet of painting. -/
def item_paint : EstimateIn :=
  { job_type := "painting"
    inputs := [("per_sqft", 600)]
    region := none
    include_tax := true
    complexity_modifiers := none }

/-- Witness line: three plumbing fixtures (resolved by the heuristic). -/
def item_plumb : EstimateIn :=
  { job_type := "plumbing"
    inputs := [("per_fixture", 3)]
    region := none
    include_tax := true
    complexity_modifiers := none }

/-- The estimate the code produces for item_paint under cfg_wit. -/
def e_paint : EstimateOut :=
  { job_type := "painting"
    region := "Durham"
    labor := 1680
    materials := 420
    modifiers := [⟨"region_multiplier", 1⟩]
    subtotal := 2100
    tax := 273
    total := 2373
    currency := "CAD"
    notes := some "Internal estimate."
    est_days_low := 2
    est_days_high := 3 }

/-- The estimate the code produces for item_plumb under cfg_wit. -/
def e_plumb : EstimateOut :=
  { job_type := "plumbing"
    region := "Durham"
    labor := 495
    materials := 330
    modifiers := [⟨"region_multiplier", 1⟩]
    subtotal := 825
    tax := 10725/100
    total := 93225/100
    currency := "CAD"
    notes := some "Internal estimate."
    est_days_low := 1
    est_days_high := 2 }

/-- The batch the code produces for two painting lines under cfg_wit. -/
def batch_two_paint : BatchOut :=
  { estimates := [e_paint, e_paint]
    total_subtotal := 4200
    total_tax := 546
    total_total := 4746
    est_days_low := 4
    est_days_high := 6 }

/-- The batch the code produces for a painting line then a plumbing line. -/
def batch_mixed : BatchOut :=
  { estimates := [e_paint, e_plumb]
    total_subtotal := 2925
    total_tax := 38025/100
    total_total := 330525/100
    est_days_low := 3
    est_days_high := 5 }

/-- Counterexample catalog for the region rule: the default region has a
multiplier different from 1. -/
def cfg_scaled : PriceCfg :=
  { default_region := "Durham"
    hst_rate := 13/100
    region_multipliers := [("Durham", 3/2)]
    base_rates := [] }

/-- Fixture for the price-refresh job: one plumbing schema. -/
def refresh_fixture : PricesFile :=
  { base_rates := [("plumbing", [("per_fixture", .num 275), ("materials_pct", .num (40/100))])]
    last_refreshed := none }

/-- The estimate the code produces for 600 square feet of painting in region
GTA with one 1.1 complexity modifier, tax included, under cfg_wit. -/
def e_gta : EstimateOut :=
  { job_type := "painting"
    region := "GTA"
    labor := 1680
    materials := 420
    modifiers := [⟨"region_multiplier", 3/2⟩, ⟨"access", 11/10⟩]
    subtotal := 3465
    tax := 45045/100
    total := 391545/100
    currency := "CAD"
    notes := some "Internal estimate."
    est_days_low := 2
    est_days_high := 3 }

/-- The estimate the code produces for 600 square feet of painting with a
numeric 1.2 modifier, a non-numeric modifier, and a numeric 1.1 modifier,
tax excluded, under cfg_wit. -/
def e_mods : EstimateOut :=
  { job_type := "painting"
    region := "Durham"
    labor := 1680
    materials := 420
    modifiers := [⟨"region_multiplier", 1⟩, ⟨"hard", 12/10⟩, ⟨"rush", 11/10⟩]
    subtotal := 2772
    tax := 0
    total := 2772
    currency := "CAD"
    notes := some "Internal estimate."
    est_days_low := 2
    est_days_high := 3 }

/- ------------------------------------------------------------------ -/
/- Helper lemmas                                                      -/
/- ------------------------------------------------------------------ -/

theorem le_pyRound (x : ℚ) : x - 1/2 ≤ (pyRound x : ℚ) := by
  have h0 : ((Int.floor x : ℤ) : ℚ) ≤ x := Int.floor_le x
  have h1 : x < ((Int.floor x : ℤ) : ℚ) + 1 := Int.lt_floor_add_one x
  simp only [pyRound]
  split_ifs with h h' h'' <;> push_cast <;> linarith

theorem pyRound_le (x : ℚ) : (pyRound x : ℚ) ≤ x + 1/2 := by
  have h0 : ((Int.floor x : ℤ) : ℚ) ≤ x := Int.floor_le x
  have h1 : x < ((Int.floor x : ℤ) : ℚ) + 1 := Int.lt_floor_add_one x
  simp only [pyRound]
  split_ifs with h h' h'' <;> push_cast <;> linarith

theorem one_le_pyRound {x : ℚ} (h : 1 ≤ x) : 1 ≤ pyRound x := by
  have hl := le_pyRound x
  have h2 : (0 : ℚ) < (pyRound x : ℚ) := by linarith
  have h3 : (0 : ℤ) < pyRound x := by exact_mod_cast h2
  omega

theorem pyRound_days_mono {b : ℚ} (h : 1 ≤ b) : pyRound b ≤ pyRound (b * (3/2)) := by
  have l1 := pyRound_le b
  have l2 := le_pyRound (b * (3/2))
  have h2 : (pyRound b : ℚ) - 1 < (pyRound (b * (3/2)) : ℚ) := by linarith
  have h3 : (pyRound b : ℤ) - 1 < pyRound (b * (3/2)) := by exact_mod_cast h2
  omega

theorem one_le_base_days (q : ℚ) : 1 ≤ base_days q := by
  unfold base_days
  split_ifs with h
  · exact le_max_left 1 (q / 300)
  · exact le_refl 1

theorem dictGet_mem {α : Type} {k : String} {l : List (String × α)} {v : α}
    (h : dictGet k l = some v) : (k, v) ∈ l := by
  induction l with
  | nil => simp [dictGet] at h
  | cons kv rest ih =>
    by_cases hk : kv.1 = k
    · simp only [dictGet, hk, if_pos] at h
      obtain rfl : kv.2 = v := by simpa using h
      subst hk
      exact List.mem_cons_self kv rest
    · simp only [dictGet, hk, if_neg, not_false_iff] at h
      exact List.mem_cons_of_mem kv (ih h)

theorem choose_cost_key_find (base : RateSchema) (kv : String × ℚ)
    (h : base.find? (fun p => p.1 != "materials_pct") = some kv) :
    choose_cost_key base = kv.1 := by
  induction base with
  | nil => simp [List.find?] at h
  | cons a rest ih =>
    by_cases ha : a.1 = "materials_pct"
    · have h2 : List.find? (fun p => p.1 != "materials_pct") rest = some kv := by
        simpa [List.find?_cons, ha] using h
      rw [choose_cost_key, if_pos ha]
      exact ih h2
    · have h2 : a = kv := by
        simpa [List.find?_cons, ha] using h
      subst h2
      rw [choose_cost_key, if_neg ha]

theorem foldl_mod_step (mods : List (String × PyVal)) :
    ∀ (s : ℚ) (ms : List Modifier),
      mods.foldl mod_step (s, ms) = (s * mod_product mods, ms ++ mod_records mods) := by
  induction mods with
  | nil => intro s ms; simp [mod_product, mod_records]
  | cons nm rest ih =>
    intro s ms
    rcases nm with ⟨n, v⟩
    cases v with
    | num f =>
      simp only [List.foldl_cons, mod_step, mod_product, mod_records,
        List.filterMap_cons, List.prod_cons, ih, mul_assoc, List.append_assoc,
        List.singleton_append]
    | str t =>
      simp only [List.foldl_cons, mod_step, mod_product, mod_records,
        List.filterMap_cons, ih]

theorem heuristic_base_ne_nil (jt : String) : heuristic_base jt ≠ [] := by
  simp only [heuristic_base]
  split_ifs <;> simp

/- ------------------------------------------------------------------ -/
/- Claim theorems                                                     -/
/- ------------------------------------------------------------------ -/

/-- C3: over a well-formed catalog (every stored rate entry a non-empty
schema), rate resolution is total: an exact match in base_rates is used when
present; otherwise the first case-insensitive substring heuristic, in the
priority order plumb, elect, paint, tile, drywall, carp, handyman, selects
the corresponding fixed schema, with the default per_sqft 10.0 /
materials_pct 0.35 schema closing the cascade; the result is always a
schema, never absent. -/
theorem rate_resolution (cfg : PriceCfg) (jt : String)
    (hwf : ∀ p ∈ cfg.base_rates, ∃ l, p.2 = RateVal.table l ∧ l ≠ []) :
    (∀ v, dictGet jt cfg.base_rates = some v → base_for cfg jt = v)
    ∧ (dictGet jt cfg.base_rates = none →
        ((strContains (str_lower jt) "plumb" = true →
            base_for cfg jt = .table [("per_fixture", 275), ("materials_pct", 40/100)])
        ∧ (strContains (str_lower jt) "plumb" = false →
           strContains (str_lower jt) "elect" = true →
            base_for cfg jt = .table [("per_point", 195), ("materials_pct", 35/100)])
        ∧ (strContains (str_lower jt) "plumb" = false →
           strContains (str_lower jt) "elect" = false →
           strContains (str_lower jt) "paint" = true →
            base_for cfg jt = .table [("per_sqft", 35/10), ("materials_pct", 20/100)])
        ∧ (strContains (str_lower jt) "plumb" = false →
           strContains (str_lower jt) "elect" = false →
           strContains (str_lower jt) "paint" = false →
           strContains (str_lower jt) "tile" = true →
            base_for cfg jt = .table [("per_sqft", 10), ("materials_pct", 40/100)])
        ∧ (strContains (str_lower jt) "plumb" = false →
           strContains (str_lower jt) "elect" = false →
           strContains (str_lower jt) "paint" = false →
           strContains (str_lower jt) "tile" = false →
           strContains (str_lower jt) "drywall" = true →
            base_for cfg jt = .table [("per_sqft", 6), ("materials_pct", 30/100)])
        ∧ (strContains (str_lower jt) "plumb" = false →
           strContains (str_lower jt) "elect" = false →
           strContains (str_lower jt) "paint" = false →
           strContains (str_lower jt) "tile" = false →
           strContains (str_lower jt) "drywall" = false →
           strContains (str_lower jt) "carp" = true →
            base_for cfg jt = .table [("per_sqft", 8), ("materials_pct", 30/100)])
        ∧ (strContains (str_lower jt) "plumb" = false →
           strContains (str_lower jt) "elect" = false →
           strContains (str_lower jt) "paint" = false →
           strContains (str_lower jt) "tile" = false →
           strContains (str_lower jt) "drywall" = false →
           strContains (str_lower jt) "carp" = false →
           strContains (str_lower jt) "handyman" = true →
            base_for cfg jt = .table [("per_point", 95), ("materials_pct", 20/100)])
        ∧ (strContains (str_lower jt) "plumb" = false →
           strContains (str_lower jt) "elect" = false →
           strContains (str_lower jt) "paint" = false →
           strContains (str_lower jt) "tile" = false →
           strContains (str_lower jt) "drywall" = false →
           strContains (str_lower jt) "carp" = false →
           strContains (str_lower jt) "handyman" = false →
            base_for cfg jt = .table [("per_sqft", 10), ("materials_pct", 35/100)])))
    ∧ (∃ l, base_for cfg jt = RateVal.table l ∧ l ≠ []) := by
  refine ⟨?_, ?_, ?_⟩
  · intro v hv
    obtain ⟨l, hl, hne⟩ := hwf (jt, v) (dictGet_mem hv)
    simp only at hl
    subst hl
    have ht : rateValTruthy (RateVal.table l) = true := by
      cases l with
      | nil => exact absurd rfl hne
      | cons a t => simp [rateValTruthy]
    simp only [base_for, hv]
    rw [if_pos ht]
  · intro h0
    have hb : base_for cfg jt = .table (heuristic_base jt) := by
      simp only [base_for, h0]
    refine ⟨?_, ?_, ?_, ?_, ?_, ?_, ?_, ?_⟩ <;>
      · intros
        rw [hb]
        unfold heuristic_base
        simp_all
  · cases hd : dictGet jt cfg.base_rates with
    | none =>
      exact ⟨heuristic_base jt, by simp only [base_for, hd], heuristic_base_ne_nil jt⟩
    | some v =>
      obtain ⟨l, hl, hne⟩ := hwf (jt, v) (dictGet_mem hd)
      simp only at hl
      subst hl
      have ht : rateValTruthy (RateVal.table l) = true := by
        cases l with
        | nil => exact absurd rfl hne
        | cons a t => simp [rateValTruthy]
      refine ⟨l, ?_, hne⟩
      simp only [base_for, hd]
      rw [if_pos ht]

/-- Witness for C3 at the concrete catalog cfg_wit and the job type
painting, which has an exact entry. -/
theorem rate_resolution_witness :
    dictGet "painting" cfg_wit.base_rates
        = some (RateVal.table [("per_sqft", 35/10), ("materials_pct", 20/100)])
    ∧ base_for cfg_wit "painting"
        = RateVal.table [("per_sqft", 35/10), ("materials_pct", 20/100)] := by
  have hwf : ∀ p ∈ cfg_wit.base_rates, ∃ l, p.2 = RateVal.table l ∧ l ≠ [] := by
    intro p hp
    simp only [cfg_wit, List.mem_singleton] at hp
    subst hp
    exact ⟨_, rfl, by simp⟩
  have hd : dictGet "painting" cfg_wit.base_rates
      = some (RateVal.table [("per_sqft", 35/10), ("materials_pct", 20/100)]) := by
    norm_num [cfg_wit, dictGet]
  exact ⟨hd, (rate_resolution cfg_wit "painting" hwf).1 _ hd⟩

/-- C4: the priced quantity is the inputs value at the cost key, the schema's
first key other than materials_pct, defaulting to 0 when that input is
absent (never an error); labor and materials split the base cost by
materials_pct and sum to quantity times unit price. -/
theorem cost_key_extraction (base : RateSchema) (inputs : List (String × ℚ))
    (kv : String × ℚ) (unit pct : ℚ)
    (hfind : base.find? (fun p => p.1 != "materials_pct") = some kv)
    (hunit : dictGet kv.1 base = some unit)
    (hpct : dictGet "materials_pct" base = some pct) :
    choose_cost_key base = kv.1
    ∧ line_core base inputs =
        some ((dictGet kv.1 inputs).getD 0,
              (dictGet kv.1 inputs).getD 0 * unit * (1 - pct),
              (dictGet kv.1 inputs).getD 0 * unit * pct)
    ∧ (dictGet kv.1 inputs = none → (dictGet kv.1 inputs).getD 0 = 0)
    ∧ (dictGet kv.1 inputs).getD 0 * unit * (1 - pct)
        + (dictGet kv.1 inputs).getD 0 * unit * pct
      = (dictGet kv.1 inputs).getD 0 * unit := by
  have hk : choose_cost_key base = kv.1 := choose_cost_key_find base kv hfind
  refine ⟨hk, ?_, ?_, by ring⟩
  · simp only [line_core, hk, hunit, hpct]
  · intro h
    rw [h]
    rfl

/-- Witness for C4: the heuristic plumbing schema with an empty inputs
mapping; the missing input is priced as quantity 0, not an error. -/
theorem cost_key_extraction_witness :
    choose_cost_key [("per_fixture", (275:ℚ)), ("materials_pct", 40/100)] = "per_fixture"
    ∧ line_core [("per_fixture", (275:ℚ)), ("materials_pct", 40/100)] [] = some (0, 0, 0) := by
  have h := cost_key_extraction [("per_fixture", (275:ℚ)), ("materials_pct", 40/100)] []
    ("per_fixture", (275:ℚ)) 275 (40/100) (by decide)
    (by norm_num +decide [dictGet]) (by norm_num +decide [dictGet])
  refine ⟨h.1, ?_⟩
  rw [h.2.1]
  norm_num +decide [dictGet]

/-- C7: with q the priced quantity, base days are max(1, q/300) when q is
positive and 1 otherwise; the estimate's day fields are round(baseDays) and
round(baseDays times 1.5). -/
theorem duration_formula (cfg : PriceCfg) (jt : String) (inputs : List (String × ℚ))
    (region : Option String) (inc : Bool) (cms : Option (List (String × PyVal)))
    (base : RateSchema) (q l m : ℚ) (e : EstimateOut)
    (hb : base_for cfg jt = RateVal.table base)
    (hc : line_core base inputs = some (q, l, m))
    (he : compute_estimate cfg jt inputs region inc cms = some e) :
    e.est_days_low = pyRound (if q > 0 then max 1 (q / 300) else 1)
    ∧ e.est_days_high = pyRound ((if q > 0 then max 1 (q / 300) else 1) * (3/2)) := by
  simp only [compute_estimate, hb, hc, Option.map_some] at he
  obtain rfl : finish_estimate cfg jt region inc (cms.getD []) (q, l, m) = e := by
    simpa using he
  simp [finish_estimate, base_days]

/-- Witness for C7 at the 600 square-foot painting line. -/
theorem duration_formula_witness :
    compute_estimate cfg_wit "painting" [("per_sqft", 600)] none true none = some e_paint
    ∧ e_paint.est_days_low = pyRound (if (600:ℚ) > 0 then max 1 ((600:ℚ) / 300) else 1)
    ∧ e_paint.est_days_high
      = pyRound ((if (600:ℚ) > 0 then max 1 ((600:ℚ) / 300) else 1) * (3/2)) := by
  have hb : base_for cfg_wit "painting"
      = RateVal.table [("per_sqft", 35/10), ("materials_pct", 20/100)] := by
    norm_num +decide [base_for, cfg_wit, dictGet, rateValTruthy]
  have hc : line_core [("per_sqft", (35:ℚ)/10), ("materials_pct", 20/100)] [("per_sqft", 600)]
      = some (600, 1680, 420) := by
    norm_num +decide [line_core, choose_cost_key, dictGet]
  have he : compute_estimate cfg_wit "painting" [("per_sqft", 600)] none true none
      = some e_paint := by
    norm_num +decide [compute_estimate, base_for, heuristic_base, line_core, choose_cost_key,
      finish_estimate, get_region_multiplier, resolved_region, apply_mods, mod_step,
      cfg_wit, e_paint, rateValTruthy, dictGet, round2, pyRound, base_days, max_def]
  have h := duration_formula cfg_wit "painting" [("per_sqft", 600)] none true none
    [("per_sqft", 35/10), ("materials_pct", 20/100)] 600 1680 420 e_paint hb hc he
  exact ⟨he, h.1, h.2⟩

/-- C10: every successfully computed estimate has a day range with low at
least one day and low never above high. -/
theorem duration_invariant (cfg : PriceCfg) (jt : String) (inputs : List (String × ℚ))
    (region : Option String) (inc : Bool) (cms : Option (List (String × PyVal)))
    (e : EstimateOut)
    (he : compute_estimate cfg jt inputs region inc cms = some e) :
    1 ≤ e.est_days_low ∧ e.est_days_low ≤ e.est_days_high := by
  cases hb : base_for cfg jt with
  | num qn =>
    simp only [compute_estimate, hb] at he
    exact absurd he (by simp)
  | table base =>
    cases hc : line_core base inputs with
    | none =>
      simp only [compute_estimate, hb, hc, Option.map_none] at he
      exact absurd he (by simp)
    | some t =>
      simp only [compute_estimate, hb, hc, Option.map_some] at he
      obtain rfl : finish_estimate cfg jt region inc (cms.getD []) t = e := by
        simpa using he
      have h1 := one_le_base_days t.1
      constructor
      · exact one_le_pyRound h1
      · exact pyRound_days_mono h1

/-- Witness for C10 at the 600 square-foot painting line. -/
theorem duration_invariant_witness :
    compute_estimate cfg_wit "painting" [("per_sqft", 600)] none true none = some e_paint
    ∧ 1 ≤ e_paint.est_days_low ∧ e_paint.est_days_low ≤ e_paint.est_days_high := by
  have he : compute_estimate cfg_wit "painting" [("per_sqft", 600)] none true none
      = some e_paint := by
    norm_num +decide [compute_estimate, base_for, heuristic_base, line_core, choose_cost_key,
      finish_estimate, get_region_multiplier, resolved_region, apply_mods, mod_step,
      cfg_wit, e_paint, rateValTruthy, dictGet, round2, pyRound, base_days, max_def]
  have h := duration_invariant cfg_wit "painting" [("per_sqft", 600)] none true none e_paint he
  exact ⟨he, h.1, h.2⟩

theorem get_region_multiplier_eq (cfg : PriceCfg) (region : Option String) :
    get_region_multiplier cfg region
      = (dictGet (resolved_region cfg region) cfg.region_multipliers).getD 1 := rfl

/-- C2 (amended): before the final two-decimal rounding, the subtotal is
labor plus materials times the multiplier of the resolved region (the
request's region when given and non-empty, else the catalog default; 1.0
when that region is absent from the multiplier table) times the product of
the numeric complexity-modifier factors; tax is that subtotal times the HST
rate when include_tax and 0 otherwise; total is subtotal plus tax; the
output carries these values rounded to two decimals. -/
theorem pricing_formula (cfg : PriceCfg) (jt : String) (inputs : List (String × ℚ))
    (region : Option String) (inc : Bool) (cms : Option (List (String × PyVal)))
    (base : RateSchema) (q l m : ℚ) (e : EstimateOut)
    (hb : base_for cfg jt = RateVal.table base)
    (hc : line_core base inputs = some (q, l, m))
    (he : compute_estimate cfg jt inputs region inc cms = some e) :
    e.region = resolved_region cfg region
    ∧ (region = none → resolved_region cfg region = cfg.default_region)
    ∧ (∀ s, region = some s → s ≠ "" → resolved_region cfg region = s)
    ∧ e.labor = round2 l
    ∧ e.materials = round2 m
    ∧ e.subtotal = round2 ((l + m)
        * (dictGet (resolved_region cfg region) cfg.region_multipliers).getD 1
        * mod_product (cms.getD []))
    ∧ e.tax = round2 (if inc then
        (l + m) * (dictGet (resolved_region cfg region) cfg.region_multipliers).getD 1
          * mod_product (cms.getD []) * cfg.hst_rate
        else 0)
    ∧ e.total = round2 ((l + m)
        * (dictGet (resolved_region cfg region) cfg.region_multipliers).getD 1
        * mod_product (cms.getD [])
        + (if inc then
            (l + m) * (dictGet (resolved_region cfg region) cfg.region_multipliers).getD 1
              * mod_product (cms.getD []) * cfg.hst_rate
          else 0)) := by
  simp only [compute_estimate, hb, hc, Option.map_some] at he
  obtain rfl : finish_estimate cfg jt region inc (cms.getD []) (q, l, m) = e := by
    simpa using he
  refine ⟨rfl, ?_, ?_, rfl, rfl, ?_, ?_, ?_⟩
  · intro h
    subst h
    rfl
  · intro s hs hne
    subst hs
    simp [resolved_region, hne]
  · simp [finish_estimate, apply_mods, foldl_mod_step, get_region_multiplier_eq]
  · simp [finish_estimate, apply_mods, foldl_mod_step, get_region_multiplier_eq]
  · simp [finish_estimate, apply_mods, foldl_mod_step, get_region_multiplier_eq]

/-- Witness for C2 (amended) at a painting line in region GTA with one
numeric modifier and tax included. -/
theorem pricing_formula_witness :
    compute_estimate cfg_wit "painting" [("per_sqft", 600)] (some "GTA") true
        (some [("access", PyVal.num (11/10))]) = some e_gta
    ∧ e_gta.region = resolved_region cfg_wit (some "GTA")
    ∧ e_gta.subtotal = round2 ((1680 + 420)
        * (dictGet (resolved_region cfg_wit (some "GTA")) cfg_wit.region_multipliers).getD 1
        * mod_product [("access", PyVal.num (11/10))])
    ∧ e_gta.tax = round2 (if true then
        (1680 + 420)
          * (dictGet (resolved_region cfg_wit (some "GTA")) cfg_wit.region_multipliers).getD 1
          * mod_product [("access", PyVal.num (11/10))] * cfg_wit.hst_rate
        else 0) := by
  have hb : base_for cfg_wit "painting"
      = RateVal.table [("per_sqft", 35/10), ("materials_pct", 20/100)] := by
    norm_num +decide [base_for, cfg_wit, dictGet, rateValTruthy]
  have hc : line_core [("per_sqft", (35:ℚ)/10), ("materials_pct", 20/100)] [("per_sqft", 600)]
      = some (600, 1680, 420) := by
    norm_num +decide [line_core, choose_cost_key, dictGet]
  have he : compute_estimate cfg_wit "painting" [("per_sqft", 600)] (some "GTA") true
      (some [("access", PyVal.num (11/10))]) = some e_gta := by
    norm_num +decide [compute_estimate, base_for, heuristic_base, line_core, choose_cost_key,
      finish_estimate, get_region_multiplier, resolved_region, apply_mods, mod_step,
      cfg_wit, e_gta, rateValTruthy, dictGet, round2, pyRound, base_days, max_def]
  have h := pricing_formula cfg_wit "painting" [("per_sqft", 600)] (some "GTA") true
    (some [("access", PyVal.num (11/10))])
    [("per_sqft", 35/10), ("materials_pct", 20/100)] 600 1680 420 e_gta hb hc he
  exact ⟨he, h.1, h.2.2.2.2.2.1, h.2.2.2.2.2.2.1⟩

/-- C2 as stated is false of the code: a given but empty region string is
sent to the default region by the source's use of Python or, so with default
region Durham carrying multiplier 1.5 the code prices 300 square feet of
painting at subtotal 1575, while the claim's region rule predicts multiplier
1.0 and subtotal 1050. -/
theorem region_empty_string_cex :
    (compute_estimate cfg_scaled "painting" [("per_sqft", 300)] (some "") false none).map
        EstimateOut.subtotal = some 1575
    ∧ spec_region_multiplier cfg_scaled (some "") = 1
    ∧ round2 ((840 + 210) * spec_region_multiplier cfg_scaled (some "") * 1) = 1050
    ∧ ((1575 : ℚ) ≠ 1050) := by
  norm_num +decide [compute_estimate, base_for, heuristic_base, line_core, choose_cost_key,
    finish_estimate, get_region_multiplier, resolved_region, apply_mods, mod_step,
    cfg_scaled, rateValTruthy, dictGet, round2, pyRound, base_days, max_def,
    spec_region_multiplier, str_lower, strContains]

/-- C5: complexity modifiers are processed in input order: each numeric
factor multiplies the running subtotal and appends a record with the
two-decimal-rounded factor; non-numeric values are skipped with no
multiplication and no record, and never fail the request; the modifier list
is the region-multiplier entry first, then the applied modifiers in order. -/
theorem modifier_pipeline (cfg : PriceCfg) (jt : String) (inputs : List (String × ℚ))
    (region : Option String) (inc : Bool) (mods : List (String × PyVal))
    (base : RateSchema) (q l m : ℚ) (e : EstimateOut)
    (hb : base_for cfg jt = RateVal.table base)
    (hc : line_core base inputs = some (q, l, m))
    (he : compute_estimate cfg jt inputs region inc (some mods) = some e) :
    e.modifiers = ⟨"region_multiplier", round2 (get_region_multiplier cfg region)⟩
        :: mod_records mods
    ∧ mod_records mods = mods.filterMap (fun nm => match nm.2 with
        | PyVal.num f => some ⟨nm.1, round2 f⟩
        | PyVal.str _ => none)
    ∧ e.subtotal = round2 ((l + m) * get_region_multiplier cfg region * mod_product mods)
    ∧ ∀ mods' : List (String × PyVal),
        (compute_estimate cfg jt inputs region inc (some mods')).isSome = true := by
  simp only [compute_estimate, hb, hc, Option.map_some] at he
  obtain rfl : finish_estimate cfg jt region inc ((some mods).getD []) (q, l, m) = e := by
    simpa using he
  refine ⟨?_, rfl, ?_, ?_⟩
  · simp [finish_estimate, apply_mods, foldl_mod_step]
  · simp [finish_estimate, apply_mods, foldl_mod_step]
  · intro mods'
    simp [compute_estimate, hb, hc]

/-- Witness for C5: a line with a numeric 1.2 modifier, a non-numeric
modifier, and a numeric 1.1 modifier; the non-numeric entry is skipped and
the request still succeeds. -/
theorem modifier_pipeline_witness :
    compute_estimate cfg_wit "painting" [("per_sqft", 600)] none false
        (some [("hard", PyVal.num (12/10)), ("note", PyVal.str "skip"),
               ("rush", PyVal.num (11/10))]) = some e_mods
    ∧ e_mods.modifiers = ⟨"region_multiplier",
        round2 (get_region_multiplier cfg_wit none)⟩
        :: mod_records [("hard", PyVal.num (12/10)), ("note", PyVal.str "skip"),
                        ("rush", PyVal.num (11/10))]
    ∧ (compute_estimate cfg_wit "painting" [("per_sqft", 600)] none false
        (some [("other", PyVal.str "also skipped")])).isSome = true := by
  have hb : base_for cfg_wit "painting"
      = RateVal.table [("per_sqft", 35/10), ("materials_pct", 20/100)] := by
    norm_num +decide [base_for, cfg_wit, dictGet, rateValTruthy]
  have hc : line_core [("per_sqft", (35:ℚ)/10), ("materials_pct", 20/100)] [("per_sqft", 600)]
      = some (600, 1680, 420) := by
    norm_num +decide [line_core, choose_cost_key, dictGet]
  have he : compute_estimate cfg_wit "painting" [("per_sqft", 600)] none false
      (some [("hard", PyVal.num (12/10)), ("note", PyVal.str "skip"),
             ("rush", PyVal.num (11/10))]) = some e_mods := by
    norm_num +decide [compute_estimate, base_for, heuristic_base, line_core, choose_cost_key,
      finish_estimate, get_region_multiplier, resolved_region, apply_mods, mod_step,
      cfg_wit, e_mods, rateValTruthy, dictGet, round2, pyRound, base_days, max_def]
  have h := modifier_pipeline cfg_wit "painting" [("per_sqft", 600)] none false
    [("hard", PyVal.num (12/10)), ("note", PyVal.str "skip"), ("rush", PyVal.num (11/10))]
    [("per_sqft", 35/10), ("materials_pct", 20/100)] 600 1680 420 e_mods hb hc he
  exact ⟨he, h.1, h.2.2.2 [("other", PyVal.str "also skipped")]⟩

/-- C1 (amended): the /estimate batch day fields are the simple sums of the
per-line rounded day fields (duration policy (a) of the spec). -/
theorem batch_days_simple_sum (cfg : PriceCfg) (items : List EstimateIn) (b : BatchOut)
    (hb : estimate cfg items = some b) :
    b.est_days_low = (b.estimates.map EstimateOut.est_days_low).sum
    ∧ b.est_days_high = (b.estimates.map EstimateOut.est_days_high).sum := by
  cases hr : run_lines cfg items with
  | none =>
    simp only [estimate, hr] at hb
    exact absurd hb (by simp)
  | some rs =>
    simp only [estimate, hr] at hb
    obtain rfl : (⟨rs, round2 ((rs.map EstimateOut.subtotal).sum),
        round2 ((rs.map EstimateOut.tax).sum), round2 ((rs.map EstimateOut.total).sum),
        (rs.map EstimateOut.est_days_low).sum,
        (rs.map EstimateOut.est_days_high).sum⟩ : BatchOut) = b := by
      simpa using hb
    exact ⟨rfl, rfl⟩

/-- Witness for C1 (amended) at a batch of two 600 square-foot painting
lines. -/
theorem batch_days_simple_sum_witness :
    estimate cfg_wit [item_paint, item_paint] = some batch_two_paint
    ∧ batch_two_paint.est_days_low
        = (batch_two_paint.estimates.map EstimateOut.est_days_low).sum
    ∧ batch_two_paint.est_days_high
        = (batch_two_paint.estimates.map EstimateOut.est_days_high).sum := by
  have hb : estimate cfg_wit [item_paint, item_paint] = some batch_two_paint := by
    norm_num +decide [estimate, run_lines, run_line, item_paint, batch_two_paint,
      compute_estimate, base_for, heuristic_base, line_core, choose_cost_key,
      finish_estimate, get_region_multiplier, resolved_region, apply_mods, mod_step,
      cfg_wit, e_paint, rateValTruthy, dictGet, round2, pyRound, base_days, max_def]
  have h := batch_days_simple_sum cfg_wit [item_paint, item_paint] batch_two_paint hb
  exact ⟨hb, h.1, h.2⟩

/-- C1 as stated is false of the code: for two 600 square-foot painting
lines the route returns day sums 4 and 6, while the claim's overlap-adjusted
policy (sum of continuous day estimates scaled by the 0.88 overlap factor,
then 0.9 and 1.1, one decimal) yields 3.2 and 3.9. -/
theorem batch_days_not_overlap_adjusted :
    (estimate cfg_wit [item_paint, item_paint]).map BatchOut.est_days_low = some 4
    ∧ (estimate cfg_wit [item_paint, item_paint]).map BatchOut.est_days_high = some 6
    ∧ spec_overlap_factor 2 = 88/100
    ∧ spec_overlap_low [600, 600] = 16/5
    ∧ spec_overlap_high [600, 600] = 39/10
    ∧ ((4 : ℚ) ≠ 16/5)
    ∧ ((6 : ℚ) ≠ 39/10) := by
  norm_num +decide [estimate, run_lines, run_line, item_paint,
    compute_estimate, base_for, heuristic_base, line_core, choose_cost_key,
    finish_estimate, get_region_multiplier, resolved_region, apply_mods, mod_step,
    cfg_wit, rateValTruthy, dictGet, round2, pyRound, round1, base_days, max_def,
    spec_overlap_factor, spec_overlap_scaled, spec_overlap_low, spec_overlap_high]

theorem run_lines_cons (cfg : PriceCfg) (i : EstimateIn) (rest : List EstimateIn)
    (rs : List EstimateOut) :
    run_lines cfg (i :: rest) = some rs ↔
      ∃ e es, run_line cfg i = some e ∧ run_lines cfg rest = some es ∧ rs = e :: es := by
  simp only [run_lines]
  cases run_line cfg i <;> cases run_lines cfg rest <;> simp [eq_comm]

theorem run_lines_perm (cfg : PriceCfg) {l1 l2 : List EstimateIn} (hp : l1.Perm l2) :
    ∀ rs, run_lines cfg l1 = some rs →
      ∃ rs', run_lines cfg l2 = some rs' ∧ rs.Perm rs' := by
  induction hp with
  | nil =>
    exact fun rs h => ⟨rs, h, List.Perm.refl rs⟩
  | cons x hperm ih =>
    intro rs h
    obtain ⟨e, es, he, hes, rfl⟩ := (run_lines_cons cfg x _ _).mp h
    obtain ⟨rs', hrs', hp2⟩ := ih es hes
    exact ⟨e :: rs', (run_lines_cons cfg x _ _).mpr ⟨e, rs', he, hrs', rfl⟩,
      List.Perm.cons e hp2⟩
  | swap x y l =>
    intro rs h
    obtain ⟨ey, rs1, hey, h1, rfl⟩ := (run_lines_cons cfg y _ _).mp h
    obtain ⟨ex, es, hex, hes, rfl⟩ := (run_lines_cons cfg x _ _).mp h1
    refine ⟨ex :: ey :: es, ?_, List.Perm.swap ex ey es⟩
    exact (run_lines_cons cfg x _ _).mpr ⟨ex, ey :: es, hex,
      (run_lines_cons cfg y _ _).mpr ⟨ey, es, hey, hes, rfl⟩, rfl⟩
  | trans h1 h2 ih1 ih2 =>
    intro rs h
    obtain ⟨rs1, ha, hpa⟩ := ih1 rs h
    obtain ⟨rs2, hb2, hpb⟩ := ih2 rs1 ha
    exact ⟨rs2, hb2, hpa.trans hpb⟩

/-- C6: each batch total is the arithmetic sum of the per-line two-decimal
rounded values, re-rounded to two decimals after summation, and permuting
the request lines leaves all three totals unchanged. -/
theorem batch_totals (cfg : PriceCfg) (items items' : List EstimateIn) (b : BatchOut)
    (hb : estimate cfg items = some b) (hp : items.Perm items') :
    b.total_subtotal = round2 ((b.estimates.map EstimateOut.subtotal).sum)
    ∧ b.total_tax = round2 ((b.estimates.map EstimateOut.tax).sum)
    ∧ b.total_total = round2 ((b.estimates.map EstimateOut.total).sum)
    ∧ ∃ b', estimate cfg items' = some b'
        ∧ b'.total_subtotal = b.total_subtotal
        ∧ b'.total_tax = b.total_tax
        ∧ b'.total_total = b.total_total := by
  cases hr : run_lines cfg items with
  | none =>
    simp only [estimate, hr] at hb
    exact absurd hb (by simp)
  | some rs =>
    simp only [estimate, hr] at hb
    obtain rfl : (⟨rs, round2 ((rs.map EstimateOut.subtotal).sum),
        round2 ((rs.map EstimateOut.tax).sum), round2 ((rs.map EstimateOut.total).sum),
        (rs.map EstimateOut.est_days_low).sum,
        (rs.map EstimateOut.est_days_high).sum⟩ : BatchOut) = b := by
      simpa using hb
    obtain ⟨rs', hr', hperm⟩ := run_lines_perm cfg hp rs hr
    refine ⟨rfl, rfl, rfl, ?_⟩
    refine ⟨⟨rs', round2 ((rs'.map EstimateOut.subtotal).sum),
        round2 ((rs'.map EstimateOut.tax).sum), round2 ((rs'.map EstimateOut.total).sum),
        (rs'.map EstimateOut.est_days_low).sum,
        (rs'.map EstimateOut.est_days_high).sum⟩, ?_, ?_, ?_, ?_⟩
    · simp only [estimate, hr']
    · exact congrArg round2 ((hperm.map EstimateOut.subtotal).sum_eq).symm
    · exact congrArg round2 ((hperm.map EstimateOut.tax).sum_eq).symm
    · exact congrArg round2 ((hperm.map EstimateOut.total).sum_eq).symm

/-- Witness for C6 at a two-line batch (painting then plumbing) and its
swap. -/
theorem batch_totals_witness :
    estimate cfg_wit [item_paint, item_plumb] = some batch_mixed
    ∧ batch_mixed.total_subtotal = round2 ((batch_mixed.estimates.map EstimateOut.subtotal).sum)
    ∧ ∃ b', estimate cfg_wit [item_plumb, item_paint] = some b'
        ∧ b'.total_subtotal = batch_mixed.total_subtotal
        ∧ b'.total_tax = batch_mixed.total_tax
        ∧ b'.total_total = batch_mixed.total_total := by
  have hb : estimate cfg_wit [item_paint, item_plumb] = some batch_mixed := by
    norm_num +decide [estimate, run_lines, run_line, item_paint, item_plumb, batch_mixed,
      compute_estimate, base_for, heuristic_base, line_core, choose_cost_key,
      finish_estimate, get_region_multiplier, resolved_region, apply_mods, mod_step,
      cfg_wit, e_paint, e_plumb, rateValTruthy, dictGet, round2, pyRound, base_days, max_def,
      str_lower, strContains]
  have h := batch_totals cfg_wit [item_paint, item_plumb] [item_plumb, item_paint]
    batch_mixed hb (List.Perm.swap item_plumb item_paint [])
  exact ⟨hb, h.1, h.2.2.2⟩

/-- C8: contrary to the claim, refresh_prices scales every numeric value in
base_rates by 1.015 and rounds to two decimals, including the materials_pct
fraction: a 0.40 materials fraction becomes 0.41. -/
theorem refresh_scales_materials_pct :
    refresh_prices "2026-10-12" refresh_fixture =
      { base_rates := [("plumbing",
          [("per_fixture", PyVal.num (27912/100)), ("materials_pct", PyVal.num (41/100))])]
        last_refreshed := some "2026-10-12" }
    ∧ ((41 : ℚ)/100 ≠ 40/100) := by
  norm_num [refresh_prices, refresh_fixture, round2, pyRound]

/-- C9 as stated is false about the rate table: the fallback catalog's
base_rates is not empty; it holds the single placeholder entry default
mapped to the bare number 100.0. -/
theorem fallback_rate_table_nonempty :
    fallback_prices.base_rates = [("default", RateVal.num 100)]
    ∧ fallback_prices.base_rates ≠ [] := by
  refine ⟨rfl, ?_⟩
  simp [fallback_prices]

/-- C9 (amended): on a catalog load failure the code falls back to the
built-in catalog with default region Durham, HST rate 0.13, the single
region multiplier Durham mapped to 1.0, and a rate table holding the single
placeholder entry default mapped to the bare number 100.0 (not a rate
schema). -/
theorem fallback_catalog_contents :
    fallback_prices.default_region = "Durham"
    ∧ fallback_prices.hst_rate = 13/100
    ∧ fallback_prices.region_multipliers = [("Durham", 1)]
    ∧ fallback_prices.base_rates = [("default", RateVal.num 100)] :=
  ⟨rfl, rfl, rfl, rfl⟩
